import Mathlib

/-!
Verification development for the AI-safe terminal command orchestrator
(`mcp-ai-terminal-server.py`).

The orchestrator is shallowly embedded: the pure classifier and routing
logic become Lean functions over `String`; the two executors become
functions from an abstract process behaviour (exit / timeout / spawn
failure, supplied by the environment) to the trace of filesystem events
they perform plus the textual report they return; the status and context
readers become functions over a snapshot of the output directory
(a list of file entries with name, modification time, content and a
readability flag; an unreadable entry models a file whose `open` raises,
which the reader code does not catch).  Python string primitives
(`in`, `split()`, `splitlines()`, `strip()`, `lower()`, slicing,
`int()`) are re-implemented at the `List Char` level so that every
definition evaluates by kernel reduction.  Known approximations, noted
where they occur: case mapping, the whitespace set and `isalnum` are
modelled for the ASCII range only, and `int()` is modelled without
non-ASCII digit support.
-/

namespace AITerm

/-! ### Python string primitives -/

/-- Python whitespace for `str.split()` / `str.strip()` (ASCII part). -/
def pyIsSpace (c : Char) : Bool :=
  c = ' ' || c = '\t' || c = '\n' || c = '\r' || c = '\x0b' || c = '\x0c'

/-- Python `str.lower()` (ASCII case mapping, as in `Char.toLower`). -/
def pyLower (s : String) : String := String.mk (s.data.map Char.toLower)

/-- Python `len(s)` (number of code points). -/
def pyLen (s : String) : Nat := s.data.length

/-- Python `s[:n]` for `n ≥ 0` (slice of the first `n` code points). -/
def pySliceChars (s : String) (n : Nat) : String := String.mk (s.data.take n)

/-- Python `s[-n:]` for a nonnegative literal count `n`
(the last `n` code points, or all of `s` when `len(s) ≤ n`). -/
def pyTailChars (s : String) (n : Nat) : String :=
  String.mk (s.data.drop (s.data.length - n))

/-- Substring occurrence test on character lists:
`isInfixB p l` is true iff `p` occurs contiguously inside `l`. -/
def isInfixB (p : List Char) : List Char → Bool
  | [] => p.isEmpty
  | c :: rest => p.isPrefixOf (c :: rest) || isInfixB p rest

/-- Python `pat in s` for strings (substring containment). -/
def strContains (s pat : String) : Bool := isInfixB pat.data s.data

/-- Python `s.startswith(pat)`. -/
def strStartsWith (s pat : String) : Bool := pat.data.isPrefixOf s.data

/-- Python `s.endswith(pat)`. -/
def strEndsWith (s pat : String) : Bool := pat.data.isSuffixOf s.data

/-- Python `s.strip()` on a character list. -/
def pyStripList (cs : List Char) : List Char :=
  ((cs.dropWhile pyIsSpace).reverse.dropWhile pyIsSpace).reverse

/-- Python `s.strip()`. -/
def pyStrip (s : String) : String := String.mk (pyStripList s.data)

/-- Helper for `pySplit`: accumulates the current word (reversed). -/
def wordsAux : List Char → List Char → List String
  | [], acc => if acc = [] then [] else [String.mk acc.reverse]
  | c :: rest, acc =>
      if pyIsSpace c then
        if acc = [] then wordsAux rest [] else String.mk acc.reverse :: wordsAux rest []
      else wordsAux rest (c :: acc)

/-- Python `s.split()` with no argument: split on whitespace runs,
discarding empty tokens. -/
def pySplit (s : String) : List String := wordsAux s.data []

/-- Line boundary characters recognised by Python `str.splitlines()`. -/
def isLineBoundChar (c : Char) : Bool :=
  c = '\n' || c = '\r' || c = '\x0b' || c = '\x0c' ||
  c = '\x1c' || c = '\x1d' || c = '\x1e' || c = '\u0085' ||
  c = '\u2028' || c = '\u2029'

/-- Helper for `pySplitlines`: accumulates the current line (reversed);
`\r\n` counts as a single boundary. -/
def splitlinesAux : List Char → List Char → List String
  | [], acc => if acc = [] then [] else [String.mk acc.reverse]
  | '\r' :: '\n' :: rest, acc => String.mk acc.reverse :: splitlinesAux rest []
  | c :: rest, acc =>
      if isLineBoundChar c then String.mk acc.reverse :: splitlinesAux rest []
      else splitlinesAux rest (c :: acc)

/-- Python `s.splitlines()`. -/
def pySplitlines (s : String) : List String := splitlinesAux s.data []

/-- Python `"\n".join(l)`. -/
def joinNL : List String → String
  | [] => ""
  | [x] => x
  | x :: rest => x ++ "\n" ++ joinNL rest

/-- Python `lst[-n:]` where the count `n` is an arbitrary integer
(`lst[-0:]` is the whole list; a negative `n` drops the first `-n`
elements). -/
def pySliceFromNeg (l : List String) (n : Int) : List String :=
  if 0 < n then l.drop (l.length - n.toNat) else l.drop (-n).toNat

/-- Value of a decimal digit. -/
def digitVal (c : Char) : Nat := c.toNat - '0'.toNat

/-- Digits of a Python integer literal after the first digit:
single underscores are allowed between digits. -/
def digitsTail : Nat → List Char → Option Nat
  | acc, [] => some acc
  | acc, '_' :: c :: rest =>
      if c.isDigit then digitsTail (10 * acc + digitVal c) rest else none
  | _, ['_'] => none
  | acc, c :: rest =>
      if c.isDigit then digitsTail (10 * acc + digitVal c) rest else none

/-- Digit run of a Python integer literal (at least one digit,
underscores only between digits). -/
def pyDigits : List Char → Option Nat
  | c :: rest => if c.isDigit then digitsTail (digitVal c) rest else none
  | [] => none

/-- Python `int(s)`: strips whitespace, then an optional sign and a
nonempty digit run; `none` models the `ValueError` raised otherwise
(ASCII digits only). -/
def pyInt? (s : String) : Option Int :=
  match pyStripList s.data with
  | '+' :: rest => (pyDigits rest).map (fun n => (n : Int))
  | '-' :: rest => (pyDigits rest).map (fun n => -(n : Int))
  | cs => (pyDigits cs).map (fun n => (n : Int))

/-- Python `"x" * n` for a single character. -/
def repChar (n : Nat) (c : Char) : String := String.mk (List.replicate n c)

/-! ### Classifier (`classify_command`, lines 123-143) -/

/-- `self.test_patterns` (line 50). -/
def test_patterns : List String := ["test", "junit", "pytest", "jest", "mocha", "rspec"]

/-- `self.build_patterns` (line 51). -/
def build_patterns : List String := ["build", "compile", "make", "gradle", "maven", "npm run build"]

/-- `self.long_patterns` (line 52). -/
def long_patterns : List String := ["install", "download", "sync", "clone", "pull", "push"]

/-- `classify_command` (lines 123-143): lowercase the command, check the
three keyword families by substring containment in priority order, then
the token count heuristic. -/
def classify_command (command : String) : String :=
  let cmd_lower := pyLower command
  if test_patterns.any (fun p => strContains cmd_lower p) then "test"
  else if build_patterns.any (fun p => strContains cmd_lower p) then "build"
  else if long_patterns.any (fun p => strContains cmd_lower p) then "long"
  else if 5 < (pySplit command).length then "complex"
  else "quick"

/-- Reference classifier transcribed from the specification wording
(section 4.1 and claim C2): test keywords first, then build, then
network/install/sync, then the >5 token heuristic, else quick, with
case-insensitive substring matching over the whole line. -/
def classify_spec (command : String) : String :=
  if test_patterns.any (fun p => strContains (pyLower command) p) then "test"
  else if build_patterns.any (fun p => strContains (pyLower command) p) then "build"
  else if long_patterns.any (fun p => strContains (pyLower command) p) then "long"
  else if 5 < (pySplit command).length then "complex"
  else "quick"

/-! ### Routing and effective timeout (`execute_safe_command`, lines 145-159) -/

/-- `self.safe_timeout` (line 44). -/
def safe_timeout : Int := 8

/-- Python `x or d` for an optional integer `x`: `None` and `0` are
falsy and yield the default. -/
def pyOrInt (x : Option Int) (d : Int) : Int :=
  match x with
  | none => d
  | some t => if t = 0 then d else t

/-- Arguments of a `run_command_safe` call after extraction
(lines 146-149): `command` is required, `force_background` defaults to
`False`, `timeout` is `None` when absent. `cwd` is kept for fidelity
but does not influence routing. -/
structure ExecuteArgs where
  command : String
  cwd : Option String
  force_background : Bool
  timeout : Option Int
deriving DecidableEq

/-- The execution strategy chosen by `execute_safe_command`. -/
inductive Plan where
  | background
  | bounded (timeout : Int)
deriving DecidableEq

/-- Routing logic of `execute_safe_command` (lines 151-159): background
if `force_background` or the category is test/build/long, otherwise
bounded with `custom_timeout or self.safe_timeout`. -/
def execute_plan (a : ExecuteArgs) : Plan :=
  let cmd_type := classify_command a.command
  if a.force_background || (["test", "build", "long"].contains cmd_type) then
    Plan.background
  else
    Plan.bounded (pyOrInt a.timeout safe_timeout)

/-! ### Executors (`execute_with_timeout`, lines 161-230;
`execute_background`, lines 232-277)

Each executor is embedded as a function from the behaviour the
environment exhibits (how the spawned process acts) to the ordered
trace of filesystem/process effects the orchestrator performs and the
textual report it returns.  A `with file.open("w")` block and its
writes become one `openWrite` event whose content is the concatenation
of the writes; likewise `openAppend` for `open("a")` blocks. -/

/-- One orchestrator effect. -/
inductive Event where
  | openWrite (path : String) (content : String)
  | openAppend (path : String) (content : String)
  | spawn (shellCommand : String) (cwd : String)
  | kill
  | waitProc
  | sleep (seconds : Nat)
  | readFile (path : String)
deriving DecidableEq

/-- Behaviour of the bounded subprocess as seen by the orchestrator:
it exits in time with decoded combined output and a return code, or the
deadline elapses first, or `create_subprocess_shell` raises. -/
inductive ProcBehavior where
  | exits (output : String) (returncode : Int)
  | timesOut
  | spawnFail (err : String)

/-- `"=" * 40` (lines 174, 195, 351). -/
def eq40 : String := repChar 40 '='

/-- `"-" * 40` (lines 318, 341). -/
def dash40 : String := repChar 40 '-'

/-- Bounded-mode log path `self.output_dir / f"safe_{timestamp}.log"`
(line 166). -/
def boundedLogPath (outDir : String) (timestamp : Nat) : String :=
  outDir ++ "/safe_" ++ toString timestamp ++ ".log"

/-- Header block written before the process starts (lines 168-174). -/
def boundedHeader (command cwd : String) (timeout : Int) (started : String) : String :=
  "=== AI-Safe Execution ===\n" ++
  "Command: " ++ command ++ "\n" ++
  "CWD: " ++ cwd ++ "\n" ++
  "Timeout: " ++ toString timeout ++ "s\n" ++
  "Started: " ++ started ++ "\n" ++
  eq40 ++ "\n"

/-- Footer appended after a natural exit (lines 193-197). -/
def successFooter (returncode : Int) (completed : String) : String :=
  "\n" ++ eq40 ++ "\n" ++
  "Exit Code: " ++ toString returncode ++ "\n" ++
  "Completed: " ++ completed ++ "\n"

/-- Marker appended after a timeout (lines 213-216). -/
def timeoutMark (timeout : Int) (terminated : String) : String :=
  "\n⏰ TIMEOUT: Command terminated\n" ++
  "Timeout: " ++ toString timeout ++ "s\n" ++
  "Terminated: " ++ terminated ++ "\n"

/-- Fixed prefix of the success report (lines 200-202). -/
def successPrefix (returncode : Int) : String :=
  "✅ Command completed successfully\n" ++
  "Exit Code: " ++ toString returncode ++ "\n" ++
  "Output:\n"

/-- Pointer to the full log, added when the excerpt was truncated
(line 205). -/
def truncPointer (path : String) : String :=
  "\n... (truncated, full output in " ++ path ++ ")"

/-- Success report (lines 200-205): excerpt of the first 2000
characters, plus the log pointer exactly when the output is longer. -/
def successResult (returncode : Int) (output path : String) : String :=
  successPrefix returncode ++ pySliceChars output 2000 ++
  (if 2000 < pyLen output then truncPointer path else "")

/-- Timeout report (lines 218-224). -/
def timeoutResult (timeout : Int) (path : String) : String :=
  "⏰ Command timed out after " ++ toString timeout ++ "s and was terminated\n" ++
  "This prevents AI from hanging on slow commands.\n" ++
  "For long-running commands, use force_background=true\n" ++
  "Log: " ++ path

/-- Failure report of the bounded executor (lines 226-230). -/
def errorResult (err : String) : String :=
  "❌ Error executing command: " ++ err

/-- `execute_with_timeout` (lines 161-230): write the header, spawn the
command, then either append output plus footer and report success,
or kill the process, wait for it, append the timeout marker and report
the timeout, or (when the spawn raises) report the caught exception.
`started` and `completed` stand for the two `time.ctime()` reads. -/
def execute_with_timeout (outDir command cwd : String) (timeout : Int)
    (timestamp : Nat) (started completed : String) (beh : ProcBehavior) :
    List Event × String :=
  let path := boundedLogPath outDir timestamp
  let hdr := Event.openWrite path (boundedHeader command cwd timeout started)
  match beh with
  | ProcBehavior.spawnFail err => ([hdr], errorResult err)
  | ProcBehavior.exits output rc =>
      ([hdr, Event.spawn command cwd,
        Event.openAppend path (output ++ successFooter rc completed)],
       successResult rc output path)
  | ProcBehavior.timesOut =>
      ([hdr, Event.spawn command cwd, Event.kill, Event.waitProc,
        Event.openAppend path (timeoutMark timeout completed)],
       timeoutResult timeout path)

/-- `safe_name` (line 235): alphanumeric, underscore and dash
characters of the first 20 characters of the command
(`isalnum` modelled on the ASCII range). -/
def safeName (command : String) : String :=
  String.mk ((pySliceChars command 20).data.filter
    (fun c => c.isAlphanum || c = '_' || c = '-'))

/-- Background log path `f"bg_{timestamp}_{safe_name}.log"` (line 236). -/
def bgLogPath (outDir : String) (timestamp : Nat) (command : String) : String :=
  outDir ++ "/bg_" ++ toString timestamp ++ "_" ++ safeName command ++ ".log"

/-- Background pid marker path (line 237). -/
def bgPidPath (outDir : String) (timestamp : Nat) (command : String) : String :=
  outDir ++ "/bg_" ++ toString timestamp ++ "_" ++ safeName command ++ ".pid"

/-- Behaviour of the background launch: the wrapper shell ran and
`echo $!` produced `pid` (already decoded and stripped), with
`logExists` and `initial` describing the opportunistic read of the
first 500 characters of the log after the one-second grace period;
or something in the block raised. -/
inductive BgBehavior where
  | launched (pid : String) (logExists : Bool) (initial : String)
  | fail (err : String)

/-- Launch report of the background launcher (lines 259-269). -/
def bgResult (pid logPath : String) (logExists : Bool) (initial : String) : String :=
  "✅ Command started in background\n" ++
  "PID: " ++ pid ++ "\n" ++
  "Output file: " ++ logPath ++ "\n" ++
  "Use check_command_status to monitor progress\n" ++
  (if logExists && !(pyStrip initial = "") then
     "\n=== Initial Output ===\n" ++ initial
   else "")

/-- `execute_background` (lines 232-277): spawn the shell line that
redirects the command output into the log and echoes the child pid,
write the pid marker, sleep one second, optionally read the start of
the log.  The orchestrator itself never creates or appends to the log
file: the redirection inside the spawned shell line does. -/
def execute_background (outDir command cwd : String) (timestamp : Nat)
    (beh : BgBehavior) : List Event × String :=
  let logPath := bgLogPath outDir timestamp command
  let pidPath := bgPidPath outDir timestamp command
  match beh with
  | BgBehavior.fail err =>
      ([], "❌ Error starting background command: " ++ err)
  | BgBehavior.launched pid logExists initial =>
      ([Event.spawn (command ++ " > " ++ logPath ++ " 2>&1 & echo $!") cwd,
        Event.openWrite pidPath pid,
        Event.sleep 1] ++
       (if logExists then [Event.readFile logPath] else []),
       bgResult pid logPath logExists initial)

/-! ### Run log store snapshot and the readers
(`check_status`, lines 279-320; `get_context`, lines 322-353)

The output directory is modelled as a list of file entries in glob
enumeration order.  `readable = false` models a file whose `open`
raises `OSError`; since neither reader wraps its file IO in a
`try`/`except`, such an exception propagates out of the operation,
which the readers' `Except String` result type makes explicit
(`Except.error` = an uncaught exception escaping the operation). -/

/-- One file of the output directory snapshot. -/
structure FileEntry where
  name : String
  mtime : Nat
  content : String
  readable : Bool
deriving DecidableEq

/-- Newest-first comparison used with `sorted(..., key=os.path.getmtime,
reverse=True)`. -/
def mtGE (a b : FileEntry) : Prop := b.mtime ≤ a.mtime

instance : DecidableRel mtGE := fun a b => Nat.decLe b.mtime a.mtime

instance : IsTotal FileEntry mtGE :=
  ⟨fun a b => Nat.le_total b.mtime a.mtime⟩

instance : IsTrans FileEntry mtGE :=
  ⟨fun _ _ _ hab hbc => Nat.le_trans hbc hab⟩

/-- Python `sorted(files, key=os.path.getmtime, reverse=True)`:
a stable descending sort by modification time.  Python sorted is
specified to be stable, and insertion sort with `mtGE` computes exactly
the stable descending ordering of the enumeration. -/
def sortNewestFirst (l : List FileEntry) : List FileEntry :=
  List.insertionSort mtGE l

/-- The glob pattern `"bg_*.log"` (line 284). -/
def isBgLogName (n : String) : Bool :=
  strStartsWith n "bg_" && strEndsWith n ".log"

/-- The glob pattern `"*.log"` (line 328). -/
def isLogName (n : String) : Bool := strEndsWith n ".log"

/-- Directory lookup by file name. -/
def findFile (fs : List FileEntry) (name : String) : Option FileEntry :=
  fs.find? (fun e => e.name == name)

/-- `log_file.stem` for a name that ends in `".log"` (the glob
guarantees the suffix), so the last 4 characters are dropped. -/
def stemOfName (n : String) : String :=
  String.mk (n.data.take (n.data.length - 4))

/-- Is the `Except`-valued reader outcome a normal return? -/
def exceptIsOk (x : Except String String) : Bool :=
  match x with
  | Except.ok _ => true
  | Except.error _ => false

/-- Substring check inside a normal reader outcome. -/
def okContainsB (x : Except String String) (pat : String) : Bool :=
  match x with
  | Except.ok s => strContains s pat
  | Except.error _ => false

/-- Liveness classification of one background invocation
(lines 293-306): the pid marker is `stem + ".pid"` (the
`replace('bg_', 'bg_')` in line 293 is the identity); a missing marker
gives Unknown; otherwise the marker is read (an unreadable marker
raises — nothing catches `OSError` here) and `os.kill(int(pid), 0)` is
probed, `except (OSError, ValueError)` mapping both a failed probe and
an unparseable pid to Completed.  `probe p = true` models
`os.kill(p, 0)` not raising. -/
def statusOf (fs : List FileEntry) (probe : Int → Bool) (stem : String) :
    Except String String :=
  match findFile fs (stem ++ ".pid") with
  | none => Except.ok "❓ Unknown"
  | some pe =>
      if pe.readable then
        Except.ok
          (match pyInt? pe.content with
           | some p => if probe p then "🔄 Running" else "✅ Completed"
           | none => "✅ Completed")
      else Except.error ("OSError opening " ++ stem ++ ".pid")

/-- The report block of one background invocation (lines 292-318):
status line, log path, and optionally the last 1000 characters of the
log (whose `open` can also raise). -/
def entryText (outDir : String) (fs : List FileEntry) (probe : Int → Bool)
    (show_output : Bool) (e : FileEntry) : Except String String := do
  let stem := stemOfName e.name
  let st ← statusOf fs probe stem
  let base := "\nCommand: " ++ stem ++ "\n" ++
              "Status: " ++ st ++ "\n" ++
              "Log: " ++ outDir ++ "/" ++ e.name ++ "\n"
  let withOutput ←
    if show_output then
      if e.readable then
        let recent := pyTailChars e.content 1000
        pure (if !(pyStrip recent = "") then
                base ++ "Recent output:\n" ++ recent ++ "\n"
              else base)
      else throw ("OSError opening " ++ outDir ++ "/" ++ e.name)
    else pure base
  pure (withOutput ++ dash40 ++ "\n")

/-- The `for log_file in bg_files[:5]` loop body accumulation
(lines 291-318): an uncaught exception aborts the whole report. -/
def renderEntries (outDir : String) (fs : List FileEntry) (probe : Int → Bool)
    (show_output : Bool) : List FileEntry → Except String String
  | [] => Except.ok ""
  | e :: rest => do
      let t ← entryText outDir fs probe show_output e
      let r ← renderEntries outDir fs probe show_output rest
      pure (t ++ r)

/-- `check_status` (lines 279-320): glob `bg_*.log`, sort newest first,
and report on the first 5; no surrounding `try`/`except`. -/
def check_status (outDir : String) (fs : List FileEntry) (probe : Int → Bool)
    (show_output : Bool) : Except String String :=
  let bg_files := sortNewestFirst (fs.filter (fun e => isBgLogName e.name))
  if bg_files = [] then Except.ok "No background commands found"
  else
    (renderEntries outDir fs probe show_output (bg_files.take 5)).map
      (fun body => "=== Background Command Status ===\n" ++ body)

/-- Truncation note of `get_context` (line 346). -/
def truncNote (n : Int) : String :=
  "... (showing last " ++ toString n ++ " lines)\n"

/-- Body contributed by one log in `get_context` (lines 343-349):
the full content, or — when `len(content_lines) > lines` — the
truncation note plus `"\n".join(content_lines[-lines:])`. -/
def ctxBody (n : Int) (content : String) : String :=
  let content_lines := pySplitlines content
  if (n : Int) < (content_lines.length : Int) then
    truncNote n ++ joinNL (pySliceFromNeg content_lines n)
  else content

/-- One file block of the context report (lines 336-351). -/
def ctxEntry (n : Int) (e : FileEntry) : Except String String :=
  if e.readable then
    Except.ok ("\n📄 " ++ e.name ++ "\n" ++ dash40 ++ "\n" ++
               ctxBody n e.content ++ "\n" ++ eq40 ++ "\n")
  else Except.error ("OSError opening " ++ e.name)

/-- The `for log_file in all_files[:3]` loop accumulation
(lines 335-351). -/
def renderCtx (n : Int) : List FileEntry → Except String String
  | [] => Except.ok ""
  | e :: rest => do
      let t ← ctxEntry n e
      let r ← renderCtx n rest
      pure (t ++ r)

/-- `get_context` (lines 322-353): glob `*.log`, sort newest first,
and emit the tail of the first 3; no surrounding `try`/`except`. -/
def get_context (fs : List FileEntry) (n : Int) : Except String String :=
  let all_files := sortNewestFirst (fs.filter (fun e => isLogName e.name))
  (renderCtx n (all_files.take 3)).map
    (fun body => "=== Recent Terminal Activity ===\n" ++ body)

/-- `get_context` argument extraction (`args.get("lines", 50)`,
line 324). -/
def get_context_args (fs : List FileEntry) (linesArg : Option Int) :
    Except String String :=
  get_context fs (linesArg.getD 50)

/-- Every file of the snapshot opens without raising. -/
def allReadableB (fs : List FileEntry) : Bool := fs.all (fun e => e.readable)

/-- Is the event a `open(path, "w")` write to `path`? -/
def isOpenWriteTo (path : String) (e : Event) : Bool :=
  match e with
  | Event.openWrite p _ => p == path
  | _ => false

/-- Is the event a `open(path, "a")` append to `path`? -/
def isOpenAppendTo (path : String) (e : Event) : Bool :=
  match e with
  | Event.openAppend p _ => p == path
  | _ => false

/-! ### Helper lemmas -/

theorem strData_append (s t : String) : (s ++ t).data = s.data ++ t.data := rfl

theorem strExt {s t : String} (h : s.data = t.data) : s = t := by
  cases s
  cases t
  exact congrArg String.mk h

/-- First character of a string, used to separate the three report
families (success, timeout, error) from one another. -/
def firstChar (s : String) : Option Char := s.data.head?

theorem ne_of_firstChar {s t : String} (h : firstChar s ≠ firstChar t) : s ≠ t :=
  fun e => h (by rw [e])

theorem isInfixB_left (p t : List Char) : isInfixB p (p ++ t) = true := by
  cases p with
  | nil =>
      cases t with
      | nil => rfl
      | cons c r =>
          show isInfixB [] (c :: r) = true
          simp [isInfixB, List.isPrefixOf]
  | cons c p' =>
      have h1 : (c :: p').isPrefixOf ((c :: p') ++ t) = true :=
        List.isPrefixOf_iff_prefix.mpr (List.prefix_append _ _)
      show isInfixB (c :: p') (c :: (p' ++ t)) = true
      simp only [isInfixB]
      rw [show c :: (p' ++ t) = (c :: p') ++ t from rfl, h1]
      rfl

theorem isInfixB_append_left (s p t : List Char) : isInfixB p (s ++ (p ++ t)) = true := by
  induction s with
  | nil => simpa using isInfixB_left p t
  | cons c s' ih =>
      cases p with
      | nil =>
          show isInfixB [] (c :: (s' ++ ([] ++ t))) = true
          simp [isInfixB, List.isPrefixOf]
      | cons d p' =>
          show isInfixB (d :: p') (c :: (s' ++ ((d :: p') ++ t))) = true
          simp only [isInfixB]
          rw [ih]
          simp

theorem strContains_append (a b c : String) : strContains (a ++ b ++ c) b = true := by
  show isInfixB b.data (a ++ b ++ c).data = true
  rw [strData_append, strData_append, List.append_assoc]
  exact isInfixB_append_left a.data b.data c.data

theorem str_append_empty (s : String) : s ++ "" = s :=
  strExt (by rw [strData_append]; exact List.append_nil _)

theorem strContains_suffix (a b : String) : strContains (a ++ b) b = true := by
  have h : a ++ b = a ++ b ++ "" := (str_append_empty (a ++ b)).symm
  rw [h]
  exact strContains_append a b ""

theorem strContains_of_eq (s a b c : String) (h : s = a ++ b ++ c) :
    strContains s b = true := by
  rw [h]
  exact strContains_append a b c

theorem firstChar_successResult (rc : Int) (output path : String) :
    firstChar (successResult rc output path) = some '✅' := rfl

theorem firstChar_timeoutResult (t : Int) (path : String) :
    firstChar (timeoutResult t path) = some '⏰' := rfl

theorem firstChar_errorResult (err : String) :
    firstChar (errorResult err) = some '❌' := rfl

theorem timeoutResult_ne_successResult (t : Int) (p : String) (rc : Int)
    (out path : String) : timeoutResult t p ≠ successResult rc out path := by
  apply ne_of_firstChar
  rw [firstChar_timeoutResult, firstChar_successResult]
  decide

theorem timeoutResult_ne_errorResult (t : Int) (p : String) (err : String) :
    timeoutResult t p ≠ errorResult err := by
  apply ne_of_firstChar
  rw [firstChar_timeoutResult, firstChar_errorResult]
  decide

theorem errorResult_ne_successResult (err : String) (rc : Int) (out path : String) :
    errorResult err ≠ successResult rc out path := by
  apply ne_of_firstChar
  rw [firstChar_errorResult, firstChar_successResult]
  decide

theorem sortNewestFirst_sorted (l : List FileEntry) :
    List.Sorted mtGE (sortNewestFirst l) :=
  List.sorted_insertionSort mtGE l

theorem mem_sortNewestFirst {l : List FileEntry} {a : FileEntry} :
    a ∈ sortNewestFirst l ↔ a ∈ l :=
  List.mem_insertionSort mtGE

theorem sortNewestFirst_take_sorted (l : List FileEntry) (k : Nat) :
    List.Sorted mtGE ((sortNewestFirst l).take k) := by
  have hs := sortNewestFirst_sorted l
  rw [← List.take_append_drop k (sortNewestFirst l)] at hs
  exact (List.pairwise_append.mp hs).1

theorem sortNewestFirst_take_dominates (l : List FileEntry) (k : Nat) :
    ∀ a ∈ (sortNewestFirst l).take k, ∀ b ∈ (sortNewestFirst l).drop k,
      b.mtime ≤ a.mtime := by
  intro a ha b hb
  have hs := sortNewestFirst_sorted l
  rw [← List.take_append_drop k (sortNewestFirst l)] at hs
  exact (List.pairwise_append.mp hs).2.2 a ha b hb

theorem exceptIsOk_iff {x : Except String String} :
    exceptIsOk x = true ↔ ∃ s, x = Except.ok s := by
  cases x <;> simp [exceptIsOk]

theorem statusOf_isOk (fs : List FileEntry) (probe : Int → Bool) (stem : String)
    (h : allReadableB fs = true) : exceptIsOk (statusOf fs probe stem) = true := by
  unfold statusOf
  cases hf : findFile fs (stem ++ ".pid") with
  | none => rfl
  | some pe =>
      have hm : pe ∈ fs := List.mem_of_find?_eq_some hf
      have hr : pe.readable = true := List.all_eq_true.mp h pe hm
      simp [hr, exceptIsOk]

theorem entryText_isOk (outDir : String) (fs : List FileEntry) (probe : Int → Bool)
    (so : Bool) (e : FileEntry) (h : allReadableB fs = true)
    (he : e.readable = true) :
    exceptIsOk (entryText outDir fs probe so e) = true := by
  obtain ⟨s, hs⟩ := exceptIsOk_iff.mp (statusOf_isOk fs probe (stemOfName e.name) h)
  unfold entryText
  simp only [hs]
  cases so <;> simp [he, exceptIsOk, Except.bind]

theorem renderEntries_isOk (outDir : String) (fs : List FileEntry)
    (probe : Int → Bool) (so : Bool) :
    ∀ l : List FileEntry, allReadableB fs = true → (∀ e ∈ l, e.readable = true) →
      exceptIsOk (renderEntries outDir fs probe so l) = true := by
  intro l
  induction l with
  | nil => intro _ _; rfl
  | cons e rest ih =>
      intro h hl
      have he : e.readable = true := hl e (List.mem_cons_self _ _)
      obtain ⟨t, ht⟩ := exceptIsOk_iff.mp (entryText_isOk outDir fs probe so e h he)
      obtain ⟨r, hr⟩ := exceptIsOk_iff.mp
        (ih h (fun x hx => hl x (List.mem_cons_of_mem _ hx)))
      unfold renderEntries
      rw [ht, hr]
      rfl

theorem take_readable (fs l : List FileEntry) (k : Nat)
    (h : allReadableB fs = true) (hsub : ∀ e ∈ l, e ∈ fs) :
    ∀ e ∈ (sortNewestFirst l).take k, e.readable = true := by
  intro e he
  have h1 : e ∈ sortNewestFirst l := List.take_subset _ _ he
  have h2 : e ∈ l := mem_sortNewestFirst.mp h1
  exact List.all_eq_true.mp h e (hsub e h2)

theorem check_status_isOk (outDir : String) (fs : List FileEntry)
    (probe : Int → Bool) (so : Bool) (h : allReadableB fs = true) :
    exceptIsOk (check_status outDir fs probe so) = true := by
  by_cases hbg : sortNewestFirst (fs.filter (fun e => isBgLogName e.name)) = []
  · simp [check_status, hbg, exceptIsOk]
  · have hread := take_readable fs (fs.filter (fun e => isBgLogName e.name)) 5 h
      (fun e he => List.mem_of_mem_filter he)
    obtain ⟨s, hs⟩ := exceptIsOk_iff.mp
      (renderEntries_isOk outDir fs probe so _ h hread)
    simp only [check_status, hbg, if_neg, hs]
    rfl

theorem ctxEntry_isOk (n : Int) (e : FileEntry) (he : e.readable = true) :
    exceptIsOk (ctxEntry n e) = true := by
  simp [ctxEntry, he, exceptIsOk]

theorem renderCtx_isOk (n : Int) :
    ∀ l : List FileEntry, (∀ e ∈ l, e.readable = true) →
      exceptIsOk (renderCtx n l) = true := by
  intro l
  induction l with
  | nil => intro _; rfl
  | cons e rest ih =>
      intro hl
      obtain ⟨t, ht⟩ := exceptIsOk_iff.mp
        (ctxEntry_isOk n e (hl e (List.mem_cons_self _ _)))
      obtain ⟨r, hr⟩ := exceptIsOk_iff.mp
        (ih (fun x hx => hl x (List.mem_cons_of_mem _ hx)))
      unfold renderCtx
      rw [ht, hr]
      rfl

theorem get_context_isOk (fs : List FileEntry) (n : Int)
    (h : allReadableB fs = true) : exceptIsOk (get_context fs n) = true := by
  have hread := take_readable fs (fs.filter (fun e => isLogName e.name)) 3 h
    (fun e he => List.mem_of_mem_filter he)
  obtain ⟨s, hs⟩ := exceptIsOk_iff.mp (renderCtx_isOk n _ hread)
  simp only [get_context, hs]
  rfl

/-- The routing condition of line 155,
`force_background or cmd_type in ["test", "build", "long"]`. -/
def bgCond (a : ExecuteArgs) : Bool :=
  a.force_background || (["test", "build", "long"].contains (classify_command a.command))

theorem execute_plan_eq (a : ExecuteArgs) :
    execute_plan a =
      if bgCond a then Plan.background
      else Plan.bounded (pyOrInt a.timeout safe_timeout) := rfl

/-! ### Claim theorems -/

/-- C1 (amended): an execute call is routed to the Background Launcher
exactly when `forceBackground` is true or `classify(command)` is one of
test, build, long, and to the Bounded Executor exactly otherwise (the
category is then complex or quick and the caller did not force
background).  A caller can force the background path, bypassing
classification; no combination of caller inputs forces the bounded
path. -/
theorem c1_routing (a : ExecuteArgs) :
    (execute_plan a = Plan.background ↔
      (a.force_background = true ∨
        (["test", "build", "long"].contains (classify_command a.command)) = true))
    ∧ ((∃ d, execute_plan a = Plan.bounded d) ↔
      (a.force_background = false ∧
        (["test", "build", "long"].contains (classify_command a.command)) = false)) := by
  cases hfb : a.force_background <;>
    cases hcc : (["test", "build", "long"].contains (classify_command a.command)) <;>
      (simp only [execute_plan_eq a, bgCond, hfb, hcc]; simp)

/-- C1 counterexample: the claim also says a caller may force either
path; for the command `pytest` (classified `test`) no choice of the
caller-controllable inputs ever reaches the Bounded Executor, so the
bounded path cannot be forced. -/
theorem c1_counterexample :
    ¬ ∃ (cwd : Option String) (fb : Bool) (t : Option Int) (d : Int),
        execute_plan
          { command := "pytest", cwd := cwd, force_background := fb, timeout := t } =
          Plan.bounded d := by
  rintro ⟨cwd, fb, t, d, h⟩
  have hc : classify_command "pytest" = "test" := by decide
  simp [execute_plan, hc] at h

/-- C2: the classifier equals the reference definition from the
specification, and consequently: a command containing a test keyword
(case-insensitively, anywhere in the line) is classified `test`; one
containing a build keyword and no test keyword is `build`; one
containing a long keyword and no test or build keyword is `long`; and a
keyword-free command with more than 5 whitespace-delimited tokens is
`complex`. -/
theorem c2_classifier :
    (∀ command : String, classify_command command = classify_spec command)
    ∧ (∀ command p, p ∈ test_patterns → strContains (pyLower command) p = true →
        classify_command command = "test")
    ∧ (∀ command p, p ∈ build_patterns → strContains (pyLower command) p = true →
        test_patterns.all (fun q => !strContains (pyLower command) q) = true →
        classify_command command = "build")
    ∧ (∀ command p, p ∈ long_patterns → strContains (pyLower command) p = true →
        test_patterns.all (fun q => !strContains (pyLower command) q) = true →
        build_patterns.all (fun q => !strContains (pyLower command) q) = true →
        classify_command command = "long")
    ∧ (∀ command : String,
        test_patterns.all (fun q => !strContains (pyLower command) q) = true →
        build_patterns.all (fun q => !strContains (pyLower command) q) = true →
        long_patterns.all (fun q => !strContains (pyLower command) q) = true →
        5 < (pySplit command).length →
        classify_command command = "complex") := by
  have hfalse : ∀ (l : List String) (f : String → Bool),
      l.all (fun x => !f x) = true → l.any f = false := by
    intro l f h
    cases ha : l.any f
    · rfl
    · obtain ⟨x, hx, hfx⟩ := List.any_eq_true.mp ha
      have hh := List.all_eq_true.mp h x hx
      rw [hfx] at hh
      exact absurd hh (by decide)
  refine ⟨fun _ => rfl, ?_, ?_, ?_, ?_⟩
  · intro command p hp hc
    have h1 : test_patterns.any (fun q => strContains (pyLower command) q) = true :=
      List.any_eq_true.mpr ⟨p, hp, hc⟩
    simp [classify_command, h1]
  · intro command p hp hc hnt
    have h1 := hfalse _ _ hnt
    have h2 : build_patterns.any (fun q => strContains (pyLower command) q) = true :=
      List.any_eq_true.mpr ⟨p, hp, hc⟩
    simp [classify_command, h1, h2]
  · intro command p hp hc hnt hnb
    have h1 := hfalse _ _ hnt
    have h2 := hfalse _ _ hnb
    have h3 : long_patterns.any (fun q => strContains (pyLower command) q) = true :=
      List.any_eq_true.mpr ⟨p, hp, hc⟩
    simp [classify_command, h1, h2, h3]
  · intro command hnt hnb hnl htok
    have h1 := hfalse _ _ hnt
    have h2 := hfalse _ _ hnb
    have h3 := hfalse _ _ hnl
    simp [classify_command, h1, h2, h3, htok]

/-- C2 witness: the classifier facts instantiated at concrete
commands. -/
theorem c2_classifier_witness :
    classify_command "Run PYTEST suite" = "test"
    ∧ classify_command "gradle assemble" = "build"
    ∧ classify_command "git CLONE repo" = "long"
    ∧ classify_command "a b c d e f" = "complex" := by
  refine ⟨?_, ?_, ?_, ?_⟩
  · exact c2_classifier.2.1 "Run PYTEST suite" "pytest" (by decide) (by decide)
  · exact c2_classifier.2.2.1 "gradle assemble" "gradle" (by decide) (by decide)
      (by decide)
  · exact c2_classifier.2.2.2.1 "git CLONE repo" "clone" (by decide) (by decide)
      (by decide) (by decide)
  · exact c2_classifier.2.2.2.2 "a b c d e f" (by decide) (by decide) (by decide)
      (by decide)

/-- C3: when the deadline elapses first, the bounded executor kills the
process and waits on it, appends the timeout marker to the log, and
returns the distinct timeout report — different from every success
report and every error report — that tells the caller to retry with
`force_background=true`. -/
theorem c3_timeout_outcome (outDir command cwd : String) (timeout : Int)
    (timestamp : Nat) (started completed : String) :
    (execute_with_timeout outDir command cwd timeout timestamp started completed
        ProcBehavior.timesOut).1 =
      [Event.openWrite (boundedLogPath outDir timestamp)
         (boundedHeader command cwd timeout started),
       Event.spawn command cwd, Event.kill, Event.waitProc,
       Event.openAppend (boundedLogPath outDir timestamp)
         (timeoutMark timeout completed)]
    ∧ (execute_with_timeout outDir command cwd timeout timestamp started completed
        ProcBehavior.timesOut).2 =
        timeoutResult timeout (boundedLogPath outDir timestamp)
    ∧ strContains (timeoutResult timeout (boundedLogPath outDir timestamp))
        "use force_background=true" = true
    ∧ (∀ rc out path, timeoutResult timeout (boundedLogPath outDir timestamp) ≠
        successResult rc out path)
    ∧ (∀ err, timeoutResult timeout (boundedLogPath outDir timestamp) ≠
        errorResult err) := by
  refine ⟨rfl, rfl, ?_, ?_, ?_⟩
  · apply strContains_of_eq _
      ("⏰ Command timed out after " ++ toString timeout ++
       "s and was terminated\nThis prevents AI from hanging on slow commands.\nFor long-running commands, ")
      "use force_background=true"
      ("\nLog: " ++ boundedLogPath outDir timestamp)
    apply strExt
    simp [timeoutResult, strData_append, List.append_assoc]
  · intro rc out path
    exact timeoutResult_ne_successResult _ _ _ _ _
  · intro err
    exact timeoutResult_ne_errorResult _ _ _

/-- C4: when the process exits before the deadline, the full output
plus exit code and completion time are appended to the log, and the
success report carries the exit code and the first 2000 characters of
the output, with the pointer to the full log exactly when the output is
longer than 2000 characters. -/
theorem c4_success_outcome (outDir command cwd : String) (timeout : Int)
    (timestamp : Nat) (started completed output : String) (rc : Int) :
    (execute_with_timeout outDir command cwd timeout timestamp started completed
        (ProcBehavior.exits output rc)).1 =
      [Event.openWrite (boundedLogPath outDir timestamp)
         (boundedHeader command cwd timeout started),
       Event.spawn command cwd,
       Event.openAppend (boundedLogPath outDir timestamp)
         (output ++ successFooter rc completed)]
    ∧ (execute_with_timeout outDir command cwd timeout timestamp started completed
        (ProcBehavior.exits output rc)).2 =
        successResult rc output (boundedLogPath outDir timestamp)
    ∧ strContains (successResult rc output (boundedLogPath outDir timestamp))
        ("Exit Code: " ++ toString rc ++ "\n") = true
    ∧ (if 2000 < pyLen output then
        successResult rc output (boundedLogPath outDir timestamp) =
          successPrefix rc ++ pySliceChars output 2000 ++
            truncPointer (boundedLogPath outDir timestamp)
      else
        successResult rc output (boundedLogPath outDir timestamp) =
          successPrefix rc ++ output)
    ∧ (∀ t p, successResult rc output (boundedLogPath outDir timestamp) ≠
        timeoutResult t p)
    ∧ (∀ err, successResult rc output (boundedLogPath outDir timestamp) ≠
        errorResult err) := by
  refine ⟨rfl, rfl, ?_, ?_, ?_, ?_⟩
  · apply strContains_of_eq _
      "✅ Command completed successfully\n"
      ("Exit Code: " ++ toString rc ++ "\n")
      ("Output:\n" ++ pySliceChars output 2000 ++
        (if 2000 < pyLen output then
          truncPointer (boundedLogPath outDir timestamp) else ""))
    apply strExt
    simp [successResult, successPrefix, strData_append, List.append_assoc]
  · by_cases hl : 2000 < pyLen output
    · rw [if_pos hl]
      simp [successResult, hl]
    · rw [if_neg hl]
      have htake : pySliceChars output 2000 = output := by
        apply strExt
        show output.data.take 2000 = output.data
        exact List.take_of_length_le (Nat.le_of_not_lt hl)
      simp [successResult, hl, htake]
  · intro t p
    exact (timeoutResult_ne_successResult _ _ _ _ _).symm
  · intro err
    exact (errorResult_ne_successResult _ _ _ _).symm

/-- C5: when the spawn itself raises, the bounded executor returns the
failure report carrying the error text — not a success report and not a
timeout report — and the trace holds exactly the already committed log
header, which is never completed. -/
theorem c5_spawn_failure (outDir command cwd : String) (timeout : Int)
    (timestamp : Nat) (started completed err : String) :
    (execute_with_timeout outDir command cwd timeout timestamp started completed
        (ProcBehavior.spawnFail err)).1 =
      [Event.openWrite (boundedLogPath outDir timestamp)
         (boundedHeader command cwd timeout started)]
    ∧ (execute_with_timeout outDir command cwd timeout timestamp started completed
        (ProcBehavior.spawnFail err)).2 = errorResult err
    ∧ strContains (errorResult err) err = true
    ∧ (∀ rc out path, errorResult err ≠ successResult rc out path)
    ∧ (∀ t p, errorResult err ≠ timeoutResult t p) := by
  refine ⟨rfl, rfl, ?_, ?_, ?_⟩
  · exact strContains_suffix "❌ Error executing command: " err
  · intro rc out path
    exact errorResult_ne_successResult _ _ _ _
  · intro t p
    exact (timeoutResult_ne_errorResult _ _ _).symm

/-- C9 (amended): a bounded invocation creates its log (with the header)
as the first effect, before the spawn; every later touch of the log is
an append; and the final append is the success footer with the exit
code or the timeout marker (after a spawn failure the header alone
remains).  A background invocation never creates or appends to its log
from the orchestrator: the only write is the pid marker, and the log is
produced by the output redirection inside the spawned shell line. -/
theorem c9_log_lifecycle (outDir command cwd : String) (timeout : Int)
    (timestamp : Nat) (started completed : String) (beh : ProcBehavior) :
    ((execute_with_timeout outDir command cwd timeout timestamp started completed
        beh).1.head? =
      some (Event.openWrite (boundedLogPath outDir timestamp)
        (boundedHeader command cwd timeout started)))
    ∧ (((execute_with_timeout outDir command cwd timeout timestamp started
        completed beh).1.drop 1).all
        (fun e => !(isOpenWriteTo (boundedLogPath outDir timestamp) e)) = true)
    ∧ (match beh with
       | ProcBehavior.exits out rc =>
          (execute_with_timeout outDir command cwd timeout timestamp started
            completed beh).1.getLast? =
            some (Event.openAppend (boundedLogPath outDir timestamp)
              (out ++ successFooter rc completed))
       | ProcBehavior.timesOut =>
          (execute_with_timeout outDir command cwd timeout timestamp started
            completed beh).1.getLast? =
            some (Event.openAppend (boundedLogPath outDir timestamp)
              (timeoutMark timeout completed))
       | ProcBehavior.spawnFail _ =>
          (execute_with_timeout outDir command cwd timeout timestamp started
            completed beh).1 =
            [Event.openWrite (boundedLogPath outDir timestamp)
              (boundedHeader command cwd timeout started)])
    ∧ (∀ pid logExists initial,
        (execute_background outDir command cwd timestamp
          (BgBehavior.launched pid logExists initial)).1 =
          [Event.spawn
             (command ++ " > " ++ bgLogPath outDir timestamp command ++
              " 2>&1 & echo $!") cwd,
           Event.openWrite (bgPidPath outDir timestamp command) pid,
           Event.sleep 1] ++
          (if logExists then [Event.readFile (bgLogPath outDir timestamp command)]
           else [])) := by
  refine ⟨?_, ?_, ?_, ?_⟩
  · cases beh <;> rfl
  · cases beh <;> rfl
  · cases beh <;> rfl
  · intro pid logExists initial
    cases logExists <;> rfl

/-- C9 counterexample: a concrete background invocation that has
reached a terminal state.  Its effect trace begins with the spawn
itself (the log is not created by the orchestrator before the process
starts) and contains no write or append to the log file at all, so the
log never ends with an appended summary line or timeout marker. -/
theorem c9_counterexample :
    (execute_background "/tmp/out" "sleep 99" "." 7
        (BgBehavior.launched "1234" true "")).1.head? =
      some (Event.spawn "sleep 99 > /tmp/out/bg_7_sleep99.log 2>&1 & echo $!" ".")
    ∧ (execute_background "/tmp/out" "sleep 99" "." 7
        (BgBehavior.launched "1234" true "")).1.all
        (fun e => !(isOpenWriteTo "/tmp/out/bg_7_sleep99.log" e) &&
                  !(isOpenAppendTo "/tmp/out/bg_7_sleep99.log" e)) = true := by
  decide

/-- C10: a bounded execute call uses the caller timeout when it is
provided and nonzero, and the built-in 8 second default otherwise; in
particular a caller timeout of 0 is replaced by the default, and no
invocation ever runs with a zero deadline. -/
theorem c10_effective_timeout :
    (∀ a : ExecuteArgs,
      execute_plan a = Plan.background
      ∨ (∃ s, a.timeout = some s ∧ s ≠ 0 ∧ execute_plan a = Plan.bounded s)
      ∨ ((a.timeout = none ∨ a.timeout = some 0) ∧
          execute_plan a = Plan.bounded safe_timeout))
    ∧ (∀ a : ExecuteArgs, execute_plan a ≠ Plan.bounded 0) := by
  constructor
  · intro a
    cases hc : bgCond a
    · have hplan : execute_plan a = Plan.bounded (pyOrInt a.timeout safe_timeout) := by
        rw [execute_plan_eq a, hc]
        rfl
      cases ht : a.timeout with
      | none =>
          refine Or.inr (Or.inr ⟨Or.inl rfl, ?_⟩)
          rw [hplan, ht]
          rfl
      | some t =>
          by_cases h0 : t = 0
          · refine Or.inr (Or.inr ⟨Or.inr (by rw [h0]), ?_⟩)
            rw [hplan, ht, h0]
            rfl
          · refine Or.inr (Or.inl ⟨t, rfl, h0, ?_⟩)
            rw [hplan, ht]
            simp [pyOrInt, h0]
    · refine Or.inl ?_
      rw [execute_plan_eq a, hc]
      rfl
  · intro a h
    cases hc : bgCond a
    · rw [execute_plan_eq a, hc] at h
      have hval : pyOrInt a.timeout safe_timeout = 0 := by
        simpa using h
      cases ht : a.timeout with
      | none =>
          rw [ht] at hval
          exact absurd hval (by decide)
      | some t =>
          rw [ht] at hval
          by_cases h0 : t = 0
          · rw [show pyOrInt (some t) safe_timeout = safe_timeout from by
              simp [pyOrInt, h0]] at hval
            exact absurd hval (by decide)
          · rw [show pyOrInt (some t) safe_timeout = t from by
              simp [pyOrInt, h0]] at hval
            exact h0 hval
    · rw [execute_plan_eq a, hc] at h
      simp at h

/-- Concrete snapshot for the C6 counterexample: the pid marker exists
and is readable but its content is not a process id. -/
def c6fs : List FileEntry :=
  [⟨"bg_100_x.log", 100, "hi", true⟩, ⟨"bg_100_x.pid", 90, "notanumber", true⟩]

/-- Concrete snapshot for the C6 witness. -/
def w6fs : List FileEntry :=
  [⟨"bg_5_a.log", 5, "out", true⟩, ⟨"bg_5_a.pid", 5, "77", true⟩]

/-- Concrete snapshot for the C7 counterexample. -/
def c7fs : List FileEntry := [⟨"safe_1.log", 1, "a\nb", true⟩]

/-- Concrete snapshot for the C7 witness. -/
def w7fs : List FileEntry := [⟨"safe_3.log", 3, "l1\nl2\nl3", true⟩]

/-- Concrete snapshot for C8: the pid marker of the newest background
invocation cannot be opened. -/
def c8fs : List FileEntry :=
  [⟨"bg_200_y.log", 200, "hi", true⟩, ⟨"bg_200_y.pid", 150, "321", false⟩]

/-- Concrete snapshot for C8: a log that cannot be opened. -/
def c8ctxfs : List FileEntry := [⟨"safe_9.log", 9, "x", false⟩]

/-- C6 (amended): `checkStatus` lists at most the 5 most recent
background invocations, newest first by log modification time, and —
when every involved file opens — classifies an invocation as running
when the probe of the parsed recorded pid succeeds, as completed when
the probe fails or the marker contents do not parse as a process id
(both errors land in the same `except` clause), and as unknown exactly
when the marker file is missing; on such a snapshot the operation
returns normally. -/
theorem c6_status_report (outDir : String) (fs : List FileEntry)
    (probe : Int → Bool) (show_output : Bool)
    (hread : allReadableB fs = true) :
    ((sortNewestFirst (fs.filter (fun e => isBgLogName e.name))).take 5).length ≤ 5
    ∧ List.Sorted mtGE
        ((sortNewestFirst (fs.filter (fun e => isBgLogName e.name))).take 5)
    ∧ (∀ a ∈ (sortNewestFirst (fs.filter (fun e => isBgLogName e.name))).take 5,
        ∀ b ∈ (sortNewestFirst (fs.filter (fun e => isBgLogName e.name))).drop 5,
          b.mtime ≤ a.mtime)
    ∧ exceptIsOk (check_status outDir fs probe show_output) = true
    ∧ (∀ stem, findFile fs (stem ++ ".pid") = none →
        statusOf fs probe stem = Except.ok "❓ Unknown")
    ∧ (∀ stem pe p, findFile fs (stem ++ ".pid") = some pe →
        pyInt? pe.content = some p → probe p = true →
        statusOf fs probe stem = Except.ok "🔄 Running")
    ∧ (∀ stem pe p, findFile fs (stem ++ ".pid") = some pe →
        pyInt? pe.content = some p → probe p = false →
        statusOf fs probe stem = Except.ok "✅ Completed")
    ∧ (∀ stem pe, findFile fs (stem ++ ".pid") = some pe →
        pyInt? pe.content = none →
        statusOf fs probe stem = Except.ok "✅ Completed") := by
  refine ⟨?_, sortNewestFirst_take_sorted _ 5, sortNewestFirst_take_dominates _ 5,
    check_status_isOk outDir fs probe show_output hread, ?_, ?_, ?_, ?_⟩
  · rw [List.length_take]
    exact min_le_left _ _
  · intro stem hf
    unfold statusOf
    rw [hf]
  · intro stem pe p hf hp hpr
    have hr : pe.readable = true :=
      List.all_eq_true.mp hread pe (List.mem_of_find?_eq_some hf)
    unfold statusOf
    rw [hf]
    simp [hr, hp, hpr]
  · intro stem pe p hf hp hpr
    have hr : pe.readable = true :=
      List.all_eq_true.mp hread pe (List.mem_of_find?_eq_some hf)
    unfold statusOf
    rw [hf]
    simp [hr, hp, hpr]
  · intro stem pe hf hp
    have hr : pe.readable = true :=
      List.all_eq_true.mp hread pe (List.mem_of_find?_eq_some hf)
    unfold statusOf
    rw [hf]
    simp [hr, hp]

/-- C6 witness: on a snapshot with a readable marker holding pid 77 and
an always-succeeding probe, the invocation is reported running. -/
theorem c6_status_report_witness :
    statusOf w6fs (fun _ => true) "bg_5_a" = Except.ok "🔄 Running" := by
  have h := c6_status_report "/tmp/out" w6fs (fun _ => true) true (by decide)
  exact h.2.2.2.2.2.1 "bg_5_a" ⟨"bg_5_a.pid", 5, "77", true⟩ 77 (by decide)
    (by decide) rfl

/-- C6 counterexample: a marker file whose contents cannot be resolved
to a liveness state (`"notanumber"`) is reported as Completed, not as
Unknown as the claim requires. -/
theorem c6_counterexample :
    okContainsB (check_status "/tmp/out" c6fs (fun _ => false) false)
        "Status: ✅ Completed" = true
    ∧ okContainsB (check_status "/tmp/out" c6fs (fun _ => false) false)
        "Unknown" = false := by
  decide

/-- C7 (amended): `getContext` covers at most the 3 most recent log
files of any mode, newest first by modification time, and returns
normally when every covered log opens.  For every requested line count
of at least 1, a log with more lines than requested contributes exactly
its last `lineCount` lines after a truncation note, and a log with at
most `lineCount` lines contributes its full content.  (For the
`lineCount = 0` call the claim fails, see the counterexample: the
Python tail slice `[-0:]` is the whole list.) -/
theorem c7_context_report (fs : List FileEntry) (n : Int) (hn : 1 ≤ n)
    (hread : allReadableB fs = true) :
    ((sortNewestFirst (fs.filter (fun e => isLogName e.name))).take 3).length ≤ 3
    ∧ List.Sorted mtGE
        ((sortNewestFirst (fs.filter (fun e => isLogName e.name))).take 3)
    ∧ (∀ a ∈ (sortNewestFirst (fs.filter (fun e => isLogName e.name))).take 3,
        ∀ b ∈ (sortNewestFirst (fs.filter (fun e => isLogName e.name))).drop 3,
          b.mtime ≤ a.mtime)
    ∧ exceptIsOk (get_context fs n) = true
    ∧ (∀ content, n < ((pySplitlines content).length : Int) →
        ctxBody n content =
          truncNote n ++ joinNL (pySliceFromNeg (pySplitlines content) n)
        ∧ (pySliceFromNeg (pySplitlines content) n).length = n.toNat)
    ∧ (∀ content, ((pySplitlines content).length : Int) ≤ n →
        ctxBody n content = content) := by
  refine ⟨?_, sortNewestFirst_take_sorted _ 3, sortNewestFirst_take_dominates _ 3,
    get_context_isOk fs n hread, ?_, ?_⟩
  · rw [List.length_take]
    exact min_le_left _ _
  · intro content hlt
    constructor
    · simp only [ctxBody]
      rw [if_pos hlt]
    · simp only [pySliceFromNeg]
      rw [if_pos (lt_of_lt_of_le Int.zero_lt_one hn)]
      rw [List.length_drop]
      omega
  · intro content hle
    simp only [ctxBody]
    rw [if_neg (not_lt.mpr hle)]

/-- C7 witness: a 3-line log with `lineCount = 2` contributes exactly
its last 2 lines. -/
theorem c7_context_report_witness :
    ctxBody 2 "l1\nl2\nl3" =
      truncNote 2 ++ joinNL (pySliceFromNeg (pySplitlines "l1\nl2\nl3") 2)
    ∧ (pySliceFromNeg (pySplitlines "l1\nl2\nl3") 2).length = (2 : Int).toNat := by
  have h := c7_context_report w7fs 2 (by decide) (by decide)
  exact h.2.2.2.2.1 "l1\nl2\nl3" (by decide)

/-- C7 counterexample: with `lineCount = 0`, a 2-line log contributes
its whole content after the truncation note instead of the last 0
lines the claim requires (Python `lst[-0:]` is the whole list). -/
theorem c7_counterexample :
    ctxBody 0 "a\nb" = truncNote 0 ++ "a\nb"
    ∧ okContainsB (get_context c7fs 0) "showing last 0 lines" = true := by
  decide

/-- C8 (amended): both execute paths convert every failure into a
textual report (the caught spawn exception becomes the error report),
but `checkStatus` and `getContext` perform their file reads with no
exception handler, so an IO failure while reading a marker or log file
raises past the operation boundary. -/
theorem c8_failure_conversion :
    (∀ outDir command cwd : String, ∀ timeout : Int, ∀ timestamp : Nat,
      ∀ started completed err : String,
        (execute_with_timeout outDir command cwd timeout timestamp started
          completed (ProcBehavior.spawnFail err)).2 = errorResult err)
    ∧ (∀ outDir command cwd : String, ∀ timestamp : Nat, ∀ err : String,
        (execute_background outDir command cwd timestamp (BgBehavior.fail err)).2 =
          "❌ Error starting background command: " ++ err)
    ∧ check_status "/tmp/out" c8fs (fun _ => false) true =
        Except.error "OSError opening bg_200_y.pid"
    ∧ get_context c8ctxfs 50 = Except.error "OSError opening safe_9.log" := by
  refine ⟨?_, ?_, ?_, ?_⟩
  · intro outDir command cwd timeout timestamp started completed err
    rfl
  · intro outDir command cwd timestamp err
    rfl
  · rfl
  · rfl

/-- C8 counterexample: an IO failure while reading a marker file is not
caught at the operation boundary — `checkStatus` propagates it instead
of converting it into a textual result. -/
theorem c8_counterexample :
    check_status "/tmp/out" c8fs (fun _ => true) true =
      Except.error "OSError opening bg_200_y.pid" := rfl

end AITerm
